import Mathlib

/-! Shallow embedding of `src/config_parser.py` (configuration-language
parser, grammar + `ConfigTransformer`) and proofs about it.

The Python program hands the grammar to lark's Earley parser and then runs a
bottom-up `Transformer` over the parse tree.  The embedding mirrors the two
phases:

* a tokenizer/recursive-descent parser for the grammar literal `GRAMMAR`
  (terminals `NUMBER`, `NAME`, the comment terminals, the punctuation, and the
  rules `start`, `statement`, `constant_def`, `value`, `array`, `const_expr`,
  `expr`/`term`/`factor`/`power`/`atom`);
* an evaluator mirroring the `ConfigTransformer` callbacks (`start`,
  `statement`, `constant_def`, `value`, `NUMBER`, `array`, `const_expr`,
  `add`, `sub`, `mul`, `div`, `len_func`, `_eval_value`, `NAME`).

Python `int` is modelled as `ℤ` (arbitrary precision), Python `float` as `ℚ`
(an exact idealization of the IEEE double; every numeric example proved below
is exact in double precision), Python `list` as `List`.
-/

namespace Konfig

/-- Runtime values of the program: Python `int`, `float` and `list` as produced
by the `NUMBER` and `array` callbacks.  These are the only kinds of value the
transformer ever stores in `self.constants` or `self.results`. -/
inductive Val where
  | int (n : ℤ)
  | float (q : ℚ)
  | arr (xs : List Val)

/-- Error kinds of the core, one per raise site of the source:
`grammarError` for lark's SyntaxError (token stream or grammar violation),
`undefinedConstant` for `ValueError("Undefined constant: ...")` (raised in
`value` and `_eval_value`), `divisionByZero` for
`ValueError("Division by zero")` (raised in `div`), `lenTypeError` for
`ValueError("len() cannot be applied to ...")` (the defensive final branch of
`len_func`), and `pyTypeError` for a Python `TypeError` escaping from the
untyped `+`, `-`, `*`, `/` on incompatible operand kinds (surfaced by
`parse_config` as a generic parse error, not as a typed kind of its own). -/
inductive Err where
  | grammarError
  | undefinedConstant (name : String)
  | divisionByZero
  | lenTypeError
  | pyTypeError
deriving DecidableEq

/-- The constant environment `self.constants`; most recent binding first, so
rebinding a name shadows (= overwrites, for lookup purposes) the old one. -/
abbrev Env := List (String × Val)

def lookupEnv : Env → String → Option Val
  | [], _ => none
  | (k, v) :: rest, s => if k = s then some v else lookupEnv rest s

/-- Operands flowing into `add`/`sub`/`mul`/`div`/`len_func`: the bottom-up
transformer passes either an already-computed value or a still-unresolved
`NAME` token (the `NAME` callback returns the token unchanged). -/
inductive Operand where
  | val (v : Val)
  | name (s : String)

/-- Mirrors `ConfigTransformer._eval_value`: a `NAME` token is looked up in the
constant table (raising `Undefined constant` if absent), anything else is
returned as-is.  (The source's `NUMBER`-token branch there is dead code: the
`NUMBER` callback has already converted every number token.) -/
def _eval_value (env : Env) : Operand → Except Err Val
  | .name s =>
    match lookupEnv env s with
    | some v => .ok v
    | none => .error (.undefinedConstant s)
  | .val v => .ok v

/-- Python `rval == 0` as tested in `div`: true for `int 0` and `float 0.0`,
false for every list. -/
def isZeroNum : Val → Bool
  | .int n => n == 0
  | .float q => q == 0
  | .arr _ => false

/-- Python list repetition `xs * n` (empty for `n ≤ 0`). -/
def listRepeat (n : ℤ) (xs : List Val) : List Val :=
  (List.replicate n.toNat xs).flatten

/-- Python `+` on the value domain: numeric addition with int/float promotion,
list concatenation for two lists, `TypeError` otherwise. -/
def pyAdd : Val → Val → Except Err Val
  | .int a, .int b => .ok (.int (a + b))
  | .int a, .float b => .ok (.float ((a : ℚ) + b))
  | .float a, .int b => .ok (.float (a + (b : ℚ)))
  | .float a, .float b => .ok (.float (a + b))
  | .arr a, .arr b => .ok (.arr (a ++ b))
  | _, _ => .error .pyTypeError

/-- Python `-` on the value domain: numeric only, `TypeError` on any list. -/
def pySub : Val → Val → Except Err Val
  | .int a, .int b => .ok (.int (a - b))
  | .int a, .float b => .ok (.float ((a : ℚ) - b))
  | .float a, .int b => .ok (.float (a - (b : ℚ)))
  | .float a, .float b => .ok (.float (a - b))
  | _, _ => .error .pyTypeError

/-- Python `*` on the value domain: numeric multiplication with promotion,
list repetition when one operand is a list and the other an int, `TypeError`
otherwise. -/
def pyMul : Val → Val → Except Err Val
  | .int a, .int b => .ok (.int (a * b))
  | .int a, .float b => .ok (.float ((a : ℚ) * b))
  | .float a, .int b => .ok (.float (a * (b : ℚ)))
  | .float a, .float b => .ok (.float (a * b))
  | .arr a, .int n => .ok (.arr (listRepeat n a))
  | .int n, .arr a => .ok (.arr (listRepeat n a))
  | _, _ => .error .pyTypeError

/-- Python true division `/` on the value domain (the zero test of `div` has
already been performed by the caller): the result is always a float, whatever
the operand kinds; `TypeError` on any list. -/
def pyDiv : Val → Val → Except Err Val
  | .int a, .int b => .ok (.float ((a : ℚ) / (b : ℚ)))
  | .int a, .float b => .ok (.float ((a : ℚ) / b))
  | .float a, .int b => .ok (.float (a / (b : ℚ)))
  | .float a, .float b => .ok (.float (a / b))
  | _, _ => .error .pyTypeError

/-- Mirrors the body of `ConfigTransformer.len_func` after `_eval_value`:
element count for a list, `1` for an int or float.  The source's final
defensive branch (`len() cannot be applied to ...`, i.e. `Err.lenTypeError`)
has no matching case here because `Val` has exactly the three kinds of value
the program can ever build; that this branch is indeed unreachable is proved
below. -/
def len_func : Val → Except Err Val
  | .arr xs => .ok (.int xs.length)
  | .int _ => .ok (.int 1)
  | .float _ => .ok (.int 1)

mutual
/-- AST of the grammar rule `value: NUMBER | array | const_expr | NAME`.
`NUMBER` tokens appear pre-classified by their lexical form, exactly as the
`NUMBER` callback classifies them: `numF` when the literal text contains
`.`, `e` or `E` (Python `float(...)`), `numI` otherwise (Python `int(...)`);
the tokenizer below performs this classification from the text. -/
inductive VExpr where
  | numI (n : ℤ)
  | numF (q : ℚ)
  | arr (es : List VExpr)
  | cexpr (e : Expr)
  | name (s : String)

/-- AST of the grammar rules `expr`/`term`/`factor`/`power`/`atom` inside a
`.[ ... ].` region.  The alternative `"(" expr ")"` of `?atom` is inlined by
lark (the rule is prefixed with `?` and has a single child), so a grouping
leaves no node of its own.  Array atoms carry `value` elements, per
`array: "(" value ("," value)* ")"`. -/
inductive Expr where
  | add (l r : Expr)
  | sub (l r : Expr)
  | mul (l r : Expr)
  | div (l r : Expr)
  | lenF (e : Expr)
  | arrA (es : List VExpr)
  | numI (n : ℤ)
  | numF (q : ℚ)
  | name (s : String)
end

/-- A `statement` node: `constant_def` or a bare `value`. -/
inductive Stmt where
  | defS (name : String) (v : VExpr)
  | valS (v : VExpr)

mutual
/-- Evaluation of a `value` node, mirroring the bottom-up transform of its
subtree followed by the `value` callback: a `NAME` token is resolved against
the constant table immediately (raising `Undefined constant` if absent), a
number was already classified by the `NUMBER` callback, an array is the list
of its evaluated elements, and a `const_expr` returns its single child after
resolving it if it is still a `NAME` token (the `const_expr` callback returns
`items[0]` unchanged; the enclosing `value` callback performs the lookup). -/
def evalValue (env : Env) : VExpr → Except Err Val
  | .numI n => .ok (.int n)
  | .numF q => .ok (.float q)
  | .name s =>
    match lookupEnv env s with
    | some v => .ok v
    | none => .error (.undefinedConstant s)
  | .arr es => do pure (.arr (← evalValueList env es))
  | .cexpr e => do _eval_value env (← evalExpr env e)

/-- Left-to-right evaluation of the `value` elements of an array literal. -/
def evalValueList (env : Env) : List VExpr → Except Err (List Val)
  | [] => .ok []
  | e :: es => do pure ((← evalValue env e) :: (← evalValueList env es))

/-- Evaluation of an `expr` subtree, mirroring lark's bottom-up transform:
children are transformed left to right (so an error in the left subtree fires
before anything in the right subtree), and only then does the operator
callback run.  A bare `NAME` atom stays an unresolved token (the `NAME`
callback returns it unchanged); `add`/`sub`/`mul` then resolve left before
right via `_eval_value`, while `div` resolves and zero-tests the *right*
operand before touching the left one, exactly as in the source:
`rval = self._eval_value(right); if rval == 0: raise ...;
return self._eval_value(left) / rval`. -/
def evalExpr (env : Env) : Expr → Except Err Operand
  | .numI n => .ok (.val (.int n))
  | .numF q => .ok (.val (.float q))
  | .name s => .ok (.name s)
  | .arrA es => do pure (.val (.arr (← evalValueList env es)))
  | .lenF e => do
    let o ← evalExpr env e
    let v ← _eval_value env o
    Except.map .val (len_func v)
  | .add l r => do
    let lo ← evalExpr env l
    let ro ← evalExpr env r
    let a ← _eval_value env lo
    let b ← _eval_value env ro
    Except.map .val (pyAdd a b)
  | .sub l r => do
    let lo ← evalExpr env l
    let ro ← evalExpr env r
    let a ← _eval_value env lo
    let b ← _eval_value env ro
    Except.map .val (pySub a b)
  | .mul l r => do
    let lo ← evalExpr env l
    let ro ← evalExpr env r
    let a ← _eval_value env lo
    let b ← _eval_value env ro
    Except.map .val (pyMul a b)
  | .div l r => do
    let lo ← evalExpr env l
    let ro ← evalExpr env r
    let b ← _eval_value env ro
    if isZeroNum b then .error .divisionByZero
    else do
      let a ← _eval_value env lo
      Except.map .val (pyDiv a b)
end

/-- Processing of the top-level statements in source order (lark transforms
the statement subtrees depth-first left to right, so the whole of statement
`i` — including the `constant_def` side effect on `self.constants` — runs
before anything of statement `i+1`).  A `constant_def` evaluates its value
subtree and binds the name, overwriting any prior binding, and contributes
nothing to the results (its callback returns `None`, which the `statement`
callback filters out); a bare value statement appends its value to
`self.results` (a `value` callback never returns `None`). -/
def evalStmts (env : Env) (acc : List Val) : List Stmt → Except Err (Env × List Val)
  | [] => .ok (env, acc)
  | .defS n ve :: rest => do
    let v ← evalValue env ve
    evalStmts ((n, v) :: env) acc rest
  | .valS ve :: rest => do
    let v ← evalValue env ve
    evalStmts env (acc ++ [v]) rest

/-- Mirrors the `start` callback: `self.results if self.results else None` —
an *empty* result list collapses to `None`, the distinguished no-result
marker. -/
def runDoc (stmts : List Stmt) : Except Err (Option (List Val)) := do
  let (_, rs) ← evalStmts [] [] stmts
  pure (if rs.isEmpty then none else some rs)

/-! Section: Tokenizer

Terminals of `GRAMMAR`: `NUMBER`, `NAME`, the literal punctuation
`def = ( ) , + - * / len .[ ].`, whitespace, `SINGLE_COMMENT` (`;` to end of
line) and `MULTI_COMMENT` (`=begin` up to the nearest `=end`, non-greedy).
Keywords are not distinguished from `NAME` at the token level: lark's Earley
parser uses its dynamic (context-driven) lexer here, which lexes `len` or
`def` as the keyword exactly where the grammar expects the keyword and as a
`NAME` elsewhere; the parser below makes the corresponding contextual
decision.  One approximation is documented at the `-` branch. -/

/-- Tokens.  `NUMBER` tokens carry the classification the `NUMBER` callback
derives from the literal text (`numF` iff the text contains `.`, `e` or `E`)
together with the numeral's value. -/
inductive Tok where
  | numI (n : ℤ)
  | numF (q : ℚ)
  | name (s : String)
  | lpar
  | rpar
  | comma
  | plus
  | minus
  | star
  | slash
  | eqT
  | clbrack
  | crbrack
deriving DecidableEq

/-- Leading digits of a character list, and the rest. -/
def takeDigits : List Char → List Char × List Char
  | [] => ([], [])
  | c :: cs =>
    if c.isDigit then
      let (ds, rest) := takeDigits cs
      (c :: ds, rest)
    else ([], c :: cs)

def digitsVal (ds : List Char) : ℕ :=
  ds.foldl (fun acc c => 10 * acc + (c.toNat - '0'.toNat)) 0

/-- Value of a fractional digit string (the part after the decimal point). -/
def fracVal (ds : List Char) : ℚ :=
  (digitsVal ds : ℚ) / (10 : ℚ) ^ ds.length

/-- Optional exponent part `[eE][+-]?\d+` of the `NUMBER` terminal; if the
characters do not complete an exponent they are left unconsumed (the regex
group is optional). Returns `(sawExponent, scaledValue, rest)`. -/
def lexExponent (q : ℚ) (cs : List Char) : Bool × ℚ × List Char :=
  match cs with
  | c :: r =>
    if c = 'e' ∨ c = 'E' then
      match r with
      | '+' :: r2 =>
        match takeDigits r2 with
        | ([], _) => (false, q, cs)
        | (ds, r3) => (true, q * (10 : ℚ) ^ (digitsVal ds : ℤ), r3)
      | '-' :: r2 =>
        match takeDigits r2 with
        | ([], _) => (false, q, cs)
        | (ds, r3) => (true, q * (10 : ℚ) ^ (-(digitsVal ds : ℤ)), r3)
      | _ =>
        match takeDigits r with
        | ([], _) => (false, q, cs)
        | (ds, r3) => (true, q * (10 : ℚ) ^ (digitsVal ds : ℤ), r3)
    else (false, q, cs)
  | [] => (false, q, cs)

/-- Body of the `NUMBER` terminal after the optional sign:
`(\d+\.\d*|\.\d+|\d+)([eE][+-]?\d+)?`.  Returns
`(textContainsDotOrExp, value, rest)`; the first component is exactly the
`NUMBER` callback's float test on the matched text. -/
def lexNumBody (cs : List Char) : Option (Bool × ℚ × List Char) :=
  match takeDigits cs with
  | ([], rest) =>
    match rest with
    | '.' :: r2 =>
      match takeDigits r2 with
      | ([], _) => none
      | (fs, r3) =>
        let (_, q, r4) := lexExponent (fracVal fs) r3
        some (true, q, r4)
    | _ => none
  | (ds, rest) =>
    match rest with
    | '.' :: r2 =>
      let (fs, r3) := takeDigits r2
      let (_, q, r4) := lexExponent ((digitsVal ds : ℚ) + fracVal fs) r3
      some (true, q, r4)
    | _ =>
      let (sawExp, q, r4) := lexExponent (digitsVal ds : ℚ) rest
      some (sawExp, q, r4)

/-- Package a lexed number as a token, applying the sign and the float/int
classification of the `NUMBER` callback. -/
def numTok (neg : Bool) (isF : Bool) (q : ℚ) : Tok :=
  let q := if neg then -q else q
  if isF then .numF q else .numI q.num

/-- Drop a `SINGLE_COMMENT`: `;[^\n]*` (the newline itself is left for the
whitespace rule). -/
def dropLineComment (cs : List Char) : List Char :=
  cs.dropWhile (· ≠ '\n')

/-- Find the nearest `=end` and return what follows it; `none` when there is
no `=end`, in which case `MULTI_COMMENT` cannot match at all. -/
def dropCommentEnd : List Char → Option (List Char)
  | '=' :: 'e' :: 'n' :: 'd' :: r => some r
  | _ :: r => dropCommentEnd r
  | [] => none

def isNameStart (c : Char) : Bool :=
  c = '_' || c.isAlpha

def isNameChar (c : Char) : Bool :=
  isNameStart c || c.isDigit

/-- Leading `NAME` characters of a character list, and the rest. -/
def takeName : List Char → List Char × List Char
  | [] => ([], [])
  | c :: cs =>
    if isNameChar c then
      let (ns, rest) := takeName cs
      (c :: ns, rest)
    else ([], c :: cs)

/-- The lexical scanner.  Lexing fails (`none`, a SyntaxError in the source)
at the first character that starts no terminal.  The `-` case follows the
`NUMBER` regex (a `-` directly followed by a digit or by `.digit` starts a
number literal); lark's dynamic lexer additionally lexes such a `-` as the
binary-minus token where only that token is expected, a context sensitivity
that matters only for unspaced subtraction (e.g. `5-3`) and that none of the
documents analysed below contains. -/
def tokenize : ℕ → List Char → Option (List Tok)
  | 0, _ => none
  | _ + 1, [] => some []
  | fuel + 1, c :: cs =>
    if c.isWhitespace then tokenize fuel cs
    else if c = ';' then tokenize fuel (dropLineComment cs)
    else if c = '=' then
      if cs.take 5 = ['b', 'e', 'g', 'i', 'n'] then
        match dropCommentEnd (cs.drop 5) with
        | some r => tokenize fuel r
        | none => (tokenize fuel cs).map (Tok.eqT :: ·)
      else (tokenize fuel cs).map (Tok.eqT :: ·)
    else if c = '.' then
      match cs with
      | '[' :: r => (tokenize fuel r).map (Tok.clbrack :: ·)
      | _ =>
        match lexNumBody (c :: cs) with
        | some (isF, q, r) => (tokenize fuel r).map (numTok false isF q :: ·)
        | none => none
    else if c = ']' then
      match cs with
      | '.' :: r => (tokenize fuel r).map (Tok.crbrack :: ·)
      | _ => none
    else if c = '(' then (tokenize fuel cs).map (Tok.lpar :: ·)
    else if c = ')' then (tokenize fuel cs).map (Tok.rpar :: ·)
    else if c = ',' then (tokenize fuel cs).map (Tok.comma :: ·)
    else if c = '+' then (tokenize fuel cs).map (Tok.plus :: ·)
    else if c = '*' then (tokenize fuel cs).map (Tok.star :: ·)
    else if c = '/' then (tokenize fuel cs).map (Tok.slash :: ·)
    else if c = '-' then
      match lexNumBody cs with
      | some (isF, q, r) => (tokenize fuel r).map (numTok true isF q :: ·)
      | none => (tokenize fuel cs).map (Tok.minus :: ·)
    else if c.isDigit then
      match lexNumBody (c :: cs) with
      | some (isF, q, r) => (tokenize fuel r).map (numTok false isF q :: ·)
      | none => none
    else if isNameStart c then
      let (ns, rest) := takeName (c :: cs)
      (tokenize fuel rest).map (Tok.name (String.mk ns) :: ·)
    else none

/-! Section: Parser

Recursive descent over the token list, one function per grammar rule, with a
fuel argument bounding the call depth (the fuel supplied by `parse` exceeds
any reachable depth, so exhaustion never decides an outcome).  `none` is
lark's SyntaxError.  Notes on the two contextually overloaded spots:

* `statement`: `def` is a keyword only at the start of
  `constant_def: "def" NAME "=" value`; elsewhere (and when not followed by
  `NAME "="`) the word is an ordinary `NAME`, which is how the dynamic lexer
  treats it, since the grammar expects no `def` keyword there.
* `?atom`: `len` followed by `(` begins `"len" "(" expr ")"`; a bare `len`
  is a `NAME`.  A parenthesized form in atom position is an arithmetic
  grouping when it closes with no top-level comma and an `array` otherwise.
  For a single parenthesized `value` (e.g. `(5)`) the grammar derives *both*
  readings; this parser commits to the grouping one.  lark's Earley resolver
  makes its own tie-break for that ambiguity, outside this repository's code;
  no theorem below depends on the committed choice. -/

mutual
/-- Rule `value: NUMBER | array | const_expr | NAME`; a parenthesis in value
position always opens an `array`. -/
def parseValue : ℕ → List Tok → Option (VExpr × List Tok)
  | 0, _ => none
  | fuel + 1, toks =>
    match toks with
    | .numI n :: r => some (.numI n, r)
    | .numF q :: r => some (.numF q, r)
    | .clbrack :: r => do
      let (e, r2) ← parseExpr fuel r
      match r2 with
      | .crbrack :: r3 => some (.cexpr e, r3)
      | _ => none
    | .lpar :: .rpar :: r => some (.arr [], r)
    | .lpar :: r => do
      let (v, r2) ← parseValue fuel r
      let (vs, r3) ← parseCommaValues fuel r2
      match r3 with
      | .rpar :: r4 => some (.arr (v :: vs), r4)
      | _ => none
    | .name s :: r => some (.name s, r)
    | _ => none

/-- Zero or more `"," value` continuations of an `array`. -/
def parseCommaValues : ℕ → List Tok → Option (List VExpr × List Tok)
  | 0, _ => none
  | fuel + 1, toks =>
    match toks with
    | .comma :: r => do
      let (v, r2) ← parseValue fuel r
      let (vs, r3) ← parseCommaValues fuel r2
      some (v :: vs, r3)
    | r => some ([], r)

/-- Rule `?expr: term` with `?term: term ("+"|"-") factor | factor`,
left-associative. -/
def parseExpr (fuel : ℕ) (toks : List Tok) : Option (Expr × List Tok) :=
  match fuel with
  | 0 => none
  | fuel + 1 => do
    let (t, r) ← parseTerm fuel toks
    parseExprLoop fuel t r

def parseExprLoop : ℕ → Expr → List Tok → Option (Expr × List Tok)
  | 0, _, _ => none
  | fuel + 1, acc, toks =>
    match toks with
    | .plus :: r => do
      let (t, r2) ← parseTerm fuel r
      parseExprLoop fuel (.add acc t) r2
    | .minus :: r => do
      let (t, r2) ← parseTerm fuel r
      parseExprLoop fuel (.sub acc t) r2
    | r => some (acc, r)

/-- Rule `?factor: factor ("*"|"/") power | power` with `?power: atom`,
left-associative. -/
def parseTerm (fuel : ℕ) (toks : List Tok) : Option (Expr × List Tok) :=
  match fuel with
  | 0 => none
  | fuel + 1 => do
    let (a, r) ← parseAtom fuel toks
    parseTermLoop fuel a r

def parseTermLoop : ℕ → Expr → List Tok → Option (Expr × List Tok)
  | 0, _, _ => none
  | fuel + 1, acc, toks =>
    match toks with
    | .star :: r => do
      let (a, r2) ← parseAtom fuel r
      parseTermLoop fuel (.mul acc a) r2
    | .slash :: r => do
      let (a, r2) ← parseAtom fuel r
      parseTermLoop fuel (.div acc a) r2
    | r => some (acc, r)

/-- Rule `?atom: "len" "(" expr ")" | array | "(" expr ")" | NUMBER | NAME`
(see the parser notes above for the two contextual decisions). -/
def parseAtom : ℕ → List Tok → Option (Expr × List Tok)
  | 0, _ => none
  | fuel + 1, toks =>
    match toks with
    | .name s :: .lpar :: r =>
      if s = "len" then do
        let (e, r2) ← parseExpr fuel r
        match r2 with
        | .rpar :: r3 => some (.lenF e, r3)
        | _ => none
      else some (.name s, .lpar :: r)
    | .name s :: r => some (.name s, r)
    | .numI n :: r => some (.numI n, r)
    | .numF q :: r => some (.numF q, r)
    | .lpar :: .rpar :: r => some (.arrA [], r)
    | .lpar :: r =>
      match parseExpr fuel r with
      | some (e, .rpar :: r2) => some (e, r2)
      | _ => do
        let (v, r2) ← parseValue fuel r
        let (vs, r3) ← parseCommaValues fuel r2
        match r3 with
        | .rpar :: r4 => some (.arrA (v :: vs), r4)
        | _ => none
    | _ => none
end

/-- Rule `statement: constant_def | value` with
`constant_def: "def" NAME "=" value`. -/
def parseStatement (fuel : ℕ) (toks : List Tok) : Option (Stmt × List Tok) :=
  match toks with
  | .name d :: .name n :: .eqT :: r =>
    if d = "def" then do
      let (v, r2) ← parseValue fuel r
      some (.defS n v, r2)
    else do
      let (v, r2) ← parseValue fuel toks
      some (.valS v, r2)
  | _ => do
    let (v, r2) ← parseValue fuel toks
    some (.valS v, r2)

/-- Rule `start: statement*`; the whole token stream must be consumed. -/
def parseProgram : ℕ → List Tok → Option (List Stmt)
  | 0, _ => none
  | _ + 1, [] => some []
  | fuel + 1, toks => do
    let (st, r) ← parseStatement fuel toks
    let rest ← parseProgram fuel r
    some (st :: rest)

/-- Mirrors `parse_config`: lex and parse the document, then run the
transformer over it from a fresh constant table.  A lexing or grammar failure
is the source's SyntaxError. -/
def parse_config (s : String) : Except Err (Option (List Val)) :=
  match tokenize (s.data.length + 1) s.data with
  | none => .error .grammarError
  | some toks =>
    match parseProgram (8 * toks.length + 16) toks with
    | none => .error .grammarError
    | some stmts => runDoc stmts

/-! Section: Validation against the behaviours exercised by `src/test_parser.py` -/

example : parse_config "123" = .ok (some [.int 123]) := rfl

example : parse_config "-456" = .ok (some [.int (-456)]) := rfl

example : parse_config "; line comment\n42" = .ok (some [.int 42]) := rfl

example : parse_config "=begin\nblock\ncomment\n=end\n42" = .ok (some [.int 42]) := rfl

example : parse_config "(1, 2, 3)" = .ok (some [.arr [.int 1, .int 2, .int 3]]) := rfl

example : parse_config "(1, (2, 3), 4)" =
    .ok (some [.arr [.int 1, .arr [.int 2, .int 3], .int 4]]) := rfl

example : parse_config "def x = 10\nx" = .ok (some [.int 10]) := rfl

example : parse_config "def x = 5\n(x, 10, x)" =
    .ok (some [.arr [.int 5, .int 10, .int 5]]) := rfl

example : parse_config "def x = 10\n.[x + 5]." = .ok (some [.int 15]) := rfl

example : parse_config "def y = 20\n.[y - 7]." = .ok (some [.int 13]) := rfl

example : parse_config "def x = 10\ndef y = 5\n.[x + y * 2]." = .ok (some [.int 20]) := rfl

example : parse_config "def arr = (1, 2, 3, 4, 5)\n.[len(arr)]." = .ok (some [.int 5]) := rfl

example : parse_config "def num = 42\n.[len(num)]." = .ok (some [.int 1]) := rfl

example : parse_config "def x = 10\n5\n(1, 2, 3)\n.[x + 5]." =
    .ok (some [.int 5, .arr [.int 1, .int 2, .int 3], .int 15]) := rfl

example : parse_config "def x = 10\n.[x / 0]." = .error .divisionByZero := rfl

example : parse_config "undefined_var" = .error (.undefinedConstant "undefined_var") := rfl

example : parse_config "def my_var = 42\ndef _private = 10\n(my_var, _private)" =
    .ok (some [.arr [.int 42, .int 10]]) := rfl

example : parse_config "def a = 2\ndef b = 3\ndef c = 4\n.[a * (b + c)]." =
    .ok (some [.int 14]) := rfl

/-! Section: Helper notions used by the theorems -/

/-- Names bound by the `constant_def` statements of a document, in order. -/
def defNames (stmts : List Stmt) : List String :=
  stmts.filterMap fun st =>
    match st with
    | .defS n _ => some n
    | .valS _ => none

/-- Whether a statement is a bare value statement (contributing one entry to
the result sequence) rather than a `constant_def`. -/
def isValStmt : Stmt → Bool
  | .valS _ => true
  | .defS _ _ => false

/-- Number of non-definition top-level statements of a document. -/
def countVal (stmts : List Stmt) : ℕ :=
  stmts.countP isValStmt

mutual
/-- Closure predicate on values: an `Integer`, a `Float`, or an `Array` of
such values, nested to any finite depth. -/
def valClosed : Val → Bool
  | .int _ => true
  | .float _ => true
  | .arr xs => valClosedList xs

def valClosedList : List Val → Bool
  | [] => true
  | v :: vs => valClosed v && valClosedList vs
end

/-- Whether a computation ended in the error of `len_func`'s defensive final
branch (`len() cannot be applied to ...`). -/
def isLenErrE {α : Type} : Except Err α → Bool
  | .error .lenTypeError => true
  | _ => false

/-! Section: Lemmas -/

theorem exc_bind_ok {α β : Type} (a : α) (f : α → Except Err β) :
    (Except.ok a).bind f = f a := rfl

theorem exc_bind_err {α β : Type} (e : Err) (f : α → Except Err β) :
    (Except.error e : Except Err α).bind f = Except.error e := rfl

theorem evalStmts_cons_def (env : Env) (acc : List Val) (n : String) (ve : VExpr)
    (rest : List Stmt) :
    evalStmts env acc (.defS n ve :: rest) =
      (evalValue env ve).bind fun v => evalStmts ((n, v) :: env) acc rest := rfl

theorem evalStmts_cons_val (env : Env) (acc : List Val) (ve : VExpr)
    (rest : List Stmt) :
    evalStmts env acc (.valS ve :: rest) =
      (evalValue env ve).bind fun v => evalStmts env (acc ++ [v]) rest := rfl

theorem evalStmts_append (p q : List Stmt) :
    ∀ env acc, evalStmts env acc (p ++ q) =
      (evalStmts env acc p).bind fun ea => evalStmts ea.1 ea.2 q := by
  induction p with
  | nil => intro env acc; rfl
  | cons st rest ih =>
    intro env acc
    cases st with
    | defS n ve =>
      rw [List.cons_append, evalStmts_cons_def, evalStmts_cons_def]
      cases evalValue env ve with
      | error e => rw [exc_bind_err, exc_bind_err, exc_bind_err]
      | ok v => rw [exc_bind_ok, exc_bind_ok]; exact ih _ _
    | valS ve =>
      rw [List.cons_append, evalStmts_cons_val, evalStmts_cons_val]
      cases evalValue env ve with
      | error e => rw [exc_bind_err, exc_bind_err, exc_bind_err]
      | ok v => rw [exc_bind_ok, exc_bind_ok]; exact ih _ _

theorem evalStmts_length (p : List Stmt) :
    ∀ env acc env' acc', evalStmts env acc p = .ok (env', acc') →
      acc'.length = acc.length + countVal p := by
  induction p with
  | nil =>
    intro env acc env' acc' h
    have h' : (Except.ok (env, acc) : Except Err (Env × List Val)) = .ok (env', acc') := h
    cases h'
    simp [countVal]
  | cons st rest ih =>
    intro env acc env' acc' h
    cases st with
    | defS n ve =>
      rw [evalStmts_cons_def] at h
      cases hv : evalValue env ve with
      | error e => rw [hv, exc_bind_err] at h; exact absurd h (by simp)
      | ok v =>
        rw [hv, exc_bind_ok] at h
        have := ih _ _ _ _ h
        simpa [countVal, isValStmt] using this
    | valS ve =>
      rw [evalStmts_cons_val] at h
      cases hv : evalValue env ve with
      | error e => rw [hv, exc_bind_err] at h; exact absurd h (by simp)
      | ok v =>
        rw [hv, exc_bind_ok] at h
        have := ih _ _ _ _ h
        simp [countVal, isValStmt] at this ⊢
        omega

theorem evalStmts_lookup_stable (p : List Stmt) :
    ∀ env acc env' acc' s, evalStmts env acc p = .ok (env', acc') →
      s ∉ defNames p → lookupEnv env' s = lookupEnv env s := by
  induction p with
  | nil =>
    intro env acc env' acc' s h _
    have h' : (Except.ok (env, acc) : Except Err (Env × List Val)) = .ok (env', acc') := h
    cases h'
    rfl
  | cons st rest ih =>
    intro env acc env' acc' s h hs
    cases st with
    | defS n ve =>
      have hcons : defNames (.defS n ve :: rest) = n :: defNames rest := rfl
      have hsn : s ≠ n := by
        intro hn
        exact hs (by rw [hcons, hn]; exact List.mem_cons_self n _)
      have hsr : s ∉ defNames rest := by
        intro hmem
        exact hs (by rw [hcons]; exact List.mem_cons_of_mem _ hmem)
      rw [evalStmts_cons_def] at h
      cases hv : evalValue env ve with
      | error e => rw [hv, exc_bind_err] at h; exact absurd h (by simp)
      | ok v =>
        rw [hv, exc_bind_ok] at h
        have hstep := ih _ _ _ _ s h hsr
        rw [hstep]
        show (if n = s then some v else lookupEnv env s) = lookupEnv env s
        rw [if_neg fun hns => hsn hns.symm]
    | valS ve =>
      have hsr : s ∉ defNames rest := by
        intro hmem
        exact hs (by rw [show defNames (.valS ve :: rest) = defNames rest from rfl]; exact hmem)
      rw [evalStmts_cons_val] at h
      cases hv : evalValue env ve with
      | error e => rw [hv, exc_bind_err] at h; exact absurd h (by simp)
      | ok v =>
        rw [hv, exc_bind_ok] at h
        exact ih _ _ _ _ s h hsr

theorem _eval_value_no_lenErr (env : Env) (o : Operand) :
    isLenErrE (_eval_value env o) = false := by
  cases o with
  | val v => rfl
  | name s =>
    show isLenErrE (match lookupEnv env s with
      | some v => Except.ok v
      | none => Except.error (Err.undefinedConstant s)) = false
    cases lookupEnv env s <;> rfl

theorem pyAdd_no_lenErr (a b : Val) : isLenErrE (pyAdd a b) = false := by
  cases a <;> cases b <;> rfl

theorem pySub_no_lenErr (a b : Val) : isLenErrE (pySub a b) = false := by
  cases a <;> cases b <;> rfl

theorem pyMul_no_lenErr (a b : Val) : isLenErrE (pyMul a b) = false := by
  cases a <;> cases b <;> rfl

theorem pyDiv_no_lenErr (a b : Val) : isLenErrE (pyDiv a b) = false := by
  cases a <;> cases b <;> rfl

theorem len_func_total (v : Val) : (len_func v).isOk = true := by
  cases v <;> rfl

theorem len_func_no_lenErr (v : Val) : isLenErrE (len_func v) = false := by
  cases v <;> rfl

theorem isLenErrE_map {α β : Type} (g : α → β) (x : Except Err α) :
    isLenErrE (Except.map g x) = isLenErrE x := by
  cases x with
  | error e => cases e <;> rfl
  | ok a => rfl

theorem bindVal_no_lenErr {α β : Type} (x : Except Err α) (f : α → Except Err β)
    (hx : isLenErrE x = false) (hf : ∀ a, isLenErrE (f a) = false) :
    isLenErrE (x.bind f) = false := by
  cases x with
  | error e =>
    rw [exc_bind_err]
    cases e
    case lenTypeError => exact hx
    all_goals rfl
  | ok a =>
    rw [exc_bind_ok]
    exact hf a

mutual
theorem evalValue_no_lenErr (env : Env) : (ve : VExpr) →
    isLenErrE (evalValue env ve) = false
  | .numI _ => rfl
  | .numF _ => rfl
  | .name s => by
    show isLenErrE (match lookupEnv env s with
      | some v => Except.ok v
      | none => Except.error (Err.undefinedConstant s)) = false
    cases lookupEnv env s <;> rfl
  | .arr es => by
    show isLenErrE ((evalValueList env es).bind fun vs => pure (Val.arr vs)) = false
    exact bindVal_no_lenErr _ _ (evalValueList_no_lenErr env es) fun vs => rfl
  | .cexpr e => by
    show isLenErrE ((evalExpr env e).bind fun o => _eval_value env o) = false
    exact bindVal_no_lenErr _ _ (evalExpr_no_lenErr env e) fun o => _eval_value_no_lenErr env o

theorem evalValueList_no_lenErr (env : Env) : (es : List VExpr) →
    isLenErrE (evalValueList env es) = false
  | [] => rfl
  | e :: es => by
    show isLenErrE ((evalValue env e).bind fun v =>
      (evalValueList env es).bind fun vs => pure (v :: vs)) = false
    refine bindVal_no_lenErr _ _ (evalValue_no_lenErr env e) fun v => ?_
    exact bindVal_no_lenErr _ _ (evalValueList_no_lenErr env es) fun vs => rfl

theorem evalExpr_no_lenErr (env : Env) : (e : Expr) →
    isLenErrE (evalExpr env e) = false
  | .numI _ => rfl
  | .numF _ => rfl
  | .name _ => rfl
  | .arrA es => by
    show isLenErrE ((evalValueList env es).bind fun vs =>
      pure (Operand.val (Val.arr vs))) = false
    exact bindVal_no_lenErr _ _ (evalValueList_no_lenErr env es) fun vs => rfl
  | .lenF e => by
    show isLenErrE ((evalExpr env e).bind fun o =>
      (_eval_value env o).bind fun v => Except.map Operand.val (len_func v)) = false
    refine bindVal_no_lenErr _ _ (evalExpr_no_lenErr env e) fun o => ?_
    refine bindVal_no_lenErr _ _ (_eval_value_no_lenErr env o) fun v => ?_
    rw [isLenErrE_map]
    exact len_func_no_lenErr v
  | .add l r => by
    show isLenErrE ((evalExpr env l).bind fun lo =>
      (evalExpr env r).bind fun ro =>
      (_eval_value env lo).bind fun a =>
      (_eval_value env ro).bind fun b =>
      Except.map Operand.val (pyAdd a b)) = false
    refine bindVal_no_lenErr _ _ (evalExpr_no_lenErr env l) fun lo => ?_
    refine bindVal_no_lenErr _ _ (evalExpr_no_lenErr env r) fun ro => ?_
    refine bindVal_no_lenErr _ _ (_eval_value_no_lenErr env lo) fun a => ?_
    refine bindVal_no_lenErr _ _ (_eval_value_no_lenErr env ro) fun b => ?_
    rw [isLenErrE_map]
    exact pyAdd_no_lenErr a b
  | .sub l r => by
    show isLenErrE ((evalExpr env l).bind fun lo =>
      (evalExpr env r).bind fun ro =>
      (_eval_value env lo).bind fun a =>
      (_eval_value env ro).bind fun b =>
      Except.map Operand.val (pySub a b)) = false
    refine bindVal_no_lenErr _ _ (evalExpr_no_lenErr env l) fun lo => ?_
    refine bindVal_no_lenErr _ _ (evalExpr_no_lenErr env r) fun ro => ?_
    refine bindVal_no_lenErr _ _ (_eval_value_no_lenErr env lo) fun a => ?_
    refine bindVal_no_lenErr _ _ (_eval_value_no_lenErr env ro) fun b => ?_
    rw [isLenErrE_map]
    exact pySub_no_lenErr a b
  | .mul l r => by
    show isLenErrE ((evalExpr env l).bind fun lo =>
      (evalExpr env r).bind fun ro =>
      (_eval_value env lo).bind fun a =>
      (_eval_value env ro).bind fun b =>
      Except.map Operand.val (pyMul a b)) = false
    refine bindVal_no_lenErr _ _ (evalExpr_no_lenErr env l) fun lo => ?_
    refine bindVal_no_lenErr _ _ (evalExpr_no_lenErr env r) fun ro => ?_
    refine bindVal_no_lenErr _ _ (_eval_value_no_lenErr env lo) fun a => ?_
    refine bindVal_no_lenErr _ _ (_eval_value_no_lenErr env ro) fun b => ?_
    rw [isLenErrE_map]
    exact pyMul_no_lenErr a b
  | .div l r => by
    show isLenErrE ((evalExpr env l).bind fun lo =>
      (evalExpr env r).bind fun ro =>
      (_eval_value env ro).bind fun b =>
      if isZeroNum b then .error .divisionByZero
      else (_eval_value env lo).bind fun a => Except.map Operand.val (pyDiv a b)) = false
    refine bindVal_no_lenErr _ _ (evalExpr_no_lenErr env l) fun lo => ?_
    refine bindVal_no_lenErr _ _ (evalExpr_no_lenErr env r) fun ro => ?_
    refine bindVal_no_lenErr _ _ (_eval_value_no_lenErr env ro) fun b => ?_
    by_cases hz : isZeroNum b
    · simp only [hz, if_true]
      rfl
    · simp only [hz, Bool.false_eq_true, if_false]
      refine bindVal_no_lenErr _ _ (_eval_value_no_lenErr env lo) fun a => ?_
      rw [isLenErrE_map]
      exact pyDiv_no_lenErr a b
end

theorem evalStmts_no_lenErr (stmts : List Stmt) :
    ∀ env acc, isLenErrE (evalStmts env acc stmts) = false := by
  induction stmts with
  | nil => intro env acc; rfl
  | cons st rest ih =>
    intro env acc
    cases st with
    | defS n ve =>
      show isLenErrE ((evalValue env ve).bind fun v =>
        evalStmts ((n, v) :: env) acc rest) = false
      exact bindVal_no_lenErr _ _ (evalValue_no_lenErr env ve) fun v => ih _ _
    | valS ve =>
      show isLenErrE ((evalValue env ve).bind fun v =>
        evalStmts env (acc ++ [v]) rest) = false
      exact bindVal_no_lenErr _ _ (evalValue_no_lenErr env ve) fun v => ih _ _

theorem runDoc_no_lenErr (stmts : List Stmt) : isLenErrE (runDoc stmts) = false := by
  show isLenErrE ((evalStmts [] [] stmts).bind fun ea =>
    pure (if ea.2.isEmpty then none else some ea.2)) = false
  exact bindVal_no_lenErr _ _ (evalStmts_no_lenErr stmts [] []) fun ea => rfl

mutual
theorem valClosed_true : ∀ v : Val, valClosed v = true
  | .int _ => rfl
  | .float _ => rfl
  | .arr xs => by
    show valClosedList xs = true
    exact valClosedList_true xs

theorem valClosedList_true : ∀ xs : List Val, valClosedList xs = true
  | [] => rfl
  | v :: vs => by
    show (valClosed v && valClosedList vs) = true
    rw [valClosed_true v, valClosedList_true vs]
    rfl
end

theorem _eval_value_name_none (env : Env) (s : String) (h : lookupEnv env s = none) :
    _eval_value env (.name s) = .error (.undefinedConstant s) := by
  show (match lookupEnv env s with
    | some v => Except.ok v
    | none => Except.error (Err.undefinedConstant s)) = _
  rw [h]

theorem _eval_value_name_some (env : Env) (s : String) (v : Val)
    (h : lookupEnv env s = some v) : _eval_value env (.name s) = .ok v := by
  show (match lookupEnv env s with
    | some v => Except.ok v
    | none => Except.error (Err.undefinedConstant s)) = _
  rw [h]

theorem evalValue_name_none (env : Env) (s : String) (h : lookupEnv env s = none) :
    evalValue env (.name s) = .error (.undefinedConstant s) := by
  show (match lookupEnv env s with
    | some v => Except.ok v
    | none => Except.error (Err.undefinedConstant s)) = _
  rw [h]

theorem evalValue_name_some (env : Env) (s : String) (v : Val)
    (h : lookupEnv env s = some v) : evalValue env (.name s) = .ok v := by
  show (match lookupEnv env s with
    | some v => Except.ok v
    | none => Except.error (Err.undefinedConstant s)) = _
  rw [h]

/-- Shared core of claim C2's amended statement: a successful run returns the
no-result marker exactly when the document has no non-definition statement. -/
theorem runDoc_none_iff (stmts : List Stmt) (r : Option (List Val))
    (h : runDoc stmts = .ok r) : r = none ↔ countVal stmts = 0 := by
  rw [show runDoc stmts = (evalStmts [] [] stmts).bind
    (fun ea => Except.ok (if ea.2.isEmpty then none else some ea.2)) from rfl] at h
  cases he : evalStmts [] [] stmts with
  | error e => rw [he, exc_bind_err] at h; exact absurd h (by simp)
  | ok ea =>
    rw [he, exc_bind_ok] at h
    have hlen := evalStmts_length stmts [] [] ea.1 ea.2 (by rw [he])
    simp only [List.length_nil, Nat.zero_add] at hlen
    have hr : r = if ea.2.isEmpty then none else some ea.2 := by
      have h' : (Except.ok (if ea.2.isEmpty then none else some ea.2) :
        Except Err (Option (List Val))) = .ok r := h
      cases h'
      rfl
    constructor
    · intro hnone
      rw [hnone] at hr
      cases hea : ea.2 with
      | nil => rw [hea] at hlen; simpa using hlen.symm
      | cons a l => rw [hea] at hr; simp at hr
    · intro hcnt
      have hz : ea.2.length = 0 := by rw [hlen, hcnt]
      have : ea.2 = [] := List.length_eq_zero.mp hz
      rw [hr, this]
      rfl

/-! Section: Claims -/

/-- C1 (counterexample): the claim that every arithmetic operation with an
`Array` operand fails with `TypeMismatchError` is false on the code: the
document `.[(1, 2) + (3, 4)].` parses successfully and `+` concatenates the
two arrays, because `ConfigTransformer.add` applies the untyped Python `+`
with no kind check. -/
theorem c1_counterexample :
    parse_config ".[(1, 2) + (3, 4)]." =
      .ok (some [.arr [.int 1, .int 2, .int 3, .int 4]]) := rfl

/-- C1 (amended): arithmetic on `Array` operands follows Python operator
semantics instead of failing with a typed mismatch error: `+` on two arrays
concatenates; `*` on an array and an integer (either order) repeats the
array; every other array/operand combination under `+`, `-`, `*`, `/` raises
an untyped Python `TypeError` (surfaced as a generic parse error), never the
typed error of `len_func`. -/
theorem c1_amended :
    (∀ xs ys, pyAdd (.arr xs) (.arr ys) = .ok (.arr (xs ++ ys)))
    ∧ (∀ xs n, pyAdd (.arr xs) (.int n) = .error .pyTypeError)
    ∧ (∀ xs q, pyAdd (.arr xs) (.float q) = .error .pyTypeError)
    ∧ (∀ xs n, pyAdd (.int n) (.arr xs) = .error .pyTypeError)
    ∧ (∀ xs q, pyAdd (.float q) (.arr xs) = .error .pyTypeError)
    ∧ (∀ xs v, pySub (.arr xs) v = .error .pyTypeError)
    ∧ (∀ xs v, pySub v (.arr xs) = .error .pyTypeError)
    ∧ (∀ xs n, pyMul (.arr xs) (.int n) = .ok (.arr (listRepeat n xs)))
    ∧ (∀ xs n, pyMul (.int n) (.arr xs) = .ok (.arr (listRepeat n xs)))
    ∧ (∀ xs q, pyMul (.arr xs) (.float q) = .error .pyTypeError)
    ∧ (∀ xs q, pyMul (.float q) (.arr xs) = .error .pyTypeError)
    ∧ (∀ xs ys, pyMul (.arr xs) (.arr ys) = .error .pyTypeError)
    ∧ (∀ xs v, pyDiv (.arr xs) v = .error .pyTypeError)
    ∧ (∀ xs v, pyDiv v (.arr xs) = .error .pyTypeError) := by
  refine ⟨fun xs ys => rfl, fun xs n => rfl, fun xs q => rfl, fun xs n => rfl,
    fun xs q => rfl, ?_, ?_, fun xs n => rfl, fun xs n => rfl, fun xs q => rfl,
    fun xs q => rfl, fun xs ys => rfl, ?_, ?_⟩
  · intro xs v; cases v <;> rfl
  · intro xs v; cases v <;> rfl
  · intro xs v; cases v <;> rfl
  · intro xs v; cases v <;> rfl

/-- C2 (counterexample): a document consisting of a single constant
definition — one top-level statement, zero non-definition statements —
produces the distinguished no-result marker, not an empty value sequence:
`start` returns `self.results if self.results else None` and the results
list is empty. -/
theorem c2_counterexample : parse_config "def x = 10" = .ok none := rfl

/-- C2 (amended): on every successful run the no-result marker is produced
exactly when the document has zero *non-definition* top-level statements (the
result list is empty); in particular a definitions-only document yields the
marker, not an empty sequence. -/
theorem c2_amended :
    (∀ stmts r, runDoc stmts = .ok r → (r = none ↔ countVal stmts = 0))
    ∧ (∀ stmts r, (∀ st ∈ stmts, isValStmt st = false) →
        runDoc stmts = .ok r → r = none) := by
  refine ⟨runDoc_none_iff, ?_⟩
  intro stmts r hdef h
  refine (runDoc_none_iff stmts r h).mpr ?_
  rw [countVal, List.countP_eq_zero]
  intro st hst
  rw [hdef st hst]
  simp

/-- C2 (witness): the amended statement applied to the one-definition
document of the counterexample. -/
theorem c2_amended_witness :
    ((none : Option (List Val)) = none ↔ countVal [Stmt.defS "x" (VExpr.numI 10)] = 0) :=
  c2_amended.1 [Stmt.defS "x" (VExpr.numI 10)] none rfl

/-- C3 (counterexample): the bare documents `len((1, 2, 3, 4, 5))` and
`len(42)` do not evaluate to `[Integer 5]` / `[Integer 1]`: the grammar
admits `len` only inside a `.[ ... ].` region, so at top level the word
lexes as a `NAME` statement and evaluation fails with
`Undefined constant: len`. -/
theorem c3_counterexample :
    parse_config "len((1, 2, 3, 4, 5))" = .error (.undefinedConstant "len")
    ∧ parse_config "len(42)" = .error (.undefinedConstant "len") := ⟨rfl, rfl⟩

/-- C3 (amended): inside a constant-folding region the claimed behaviour
holds — `.[len((1, 2, 3, 4, 5))].` yields `[Integer 5]` and `.[len(42)].`
yields `[Integer 1]` — and in general `len` yields the element count on an
array and `1` on an integer or float; the bare documents of the
counterexample instead fail with `UndefinedConstantError("len")`. -/
theorem c3_amended :
    parse_config ".[len((1, 2, 3, 4, 5))]." = .ok (some [.int 5])
    ∧ parse_config ".[len(42)]." = .ok (some [.int 1])
    ∧ (∀ xs, len_func (.arr xs) = .ok (.int xs.length))
    ∧ (∀ n, len_func (.int n) = .ok (.int 1))
    ∧ (∀ q, len_func (.float q) = .ok (.int 1)) :=
  ⟨rfl, rfl, fun _ => rfl, fun _ => rfl, fun _ => rfl⟩

/-- C4 (counterexample): with `y` undefined, the document `.[y / 0].` fails
with the division-by-zero error, not with `UndefinedConstantError("y")`:
`div` resolves and zero-tests its *right* operand before ever resolving the
left one. -/
theorem c4_counterexample : parse_config ".[y / 0]." = .error .divisionByZero := rfl

/-- C4 (amended): operand subtrees are transformed left to right, and
`add`/`sub`/`mul` resolve a left name token before the right one — but `div`
resolves the right operand first and raises on a zero divisor before the
left operand is resolved, so `.[y / 0].` with `y` unresolvable fails with
`DivisionByZeroError`, and a division with two unresolvable names reports
the *right* name. -/
theorem c4_amended :
    (∀ env a b, lookupEnv env a = none →
      evalExpr env (.add (.name a) (.name b)) = .error (.undefinedConstant a))
    ∧ (∀ env a b, lookupEnv env a = none →
      evalExpr env (.sub (.name a) (.name b)) = .error (.undefinedConstant a))
    ∧ (∀ env a b, lookupEnv env a = none →
      evalExpr env (.mul (.name a) (.name b)) = .error (.undefinedConstant a))
    ∧ (∀ env a b, lookupEnv env b = none →
      evalExpr env (.div (.name a) (.name b)) = .error (.undefinedConstant b))
    ∧ (∀ env a, evalExpr env (.div (.name a) (.numI 0)) = .error .divisionByZero) := by
  refine ⟨?_, ?_, ?_, ?_, fun env a => rfl⟩
  · intro env a b h
    show ((_eval_value env (.name a)).bind fun x =>
      (_eval_value env (.name b)).bind fun y =>
        Except.map Operand.val (pyAdd x y)) = _
    rw [_eval_value_name_none env a h, exc_bind_err]
  · intro env a b h
    show ((_eval_value env (.name a)).bind fun x =>
      (_eval_value env (.name b)).bind fun y =>
        Except.map Operand.val (pySub x y)) = _
    rw [_eval_value_name_none env a h, exc_bind_err]
  · intro env a b h
    show ((_eval_value env (.name a)).bind fun x =>
      (_eval_value env (.name b)).bind fun y =>
        Except.map Operand.val (pyMul x y)) = _
    rw [_eval_value_name_none env a h, exc_bind_err]
  · intro env a b h
    show ((_eval_value env (.name b)).bind fun y =>
      if isZeroNum y then Except.error Err.divisionByZero
      else (_eval_value env (.name a)).bind fun x =>
        Except.map Operand.val (pyDiv x y)) = _
    rw [_eval_value_name_none env b h, exc_bind_err]

/-- C4 (witness): the amended statement at the empty environment with the
names `u` and `w` and at the divisor literal `0`. -/
theorem c4_amended_witness :
    evalExpr [] (.add (.name "u") (.name "w")) = .error (.undefinedConstant "u")
    ∧ evalExpr [] (.div (.name "u") (.name "w")) = .error (.undefinedConstant "w")
    ∧ evalExpr [] (.div (.name "u") (.numI 0)) = .error .divisionByZero :=
  ⟨c4_amended.1 [] "u" "w" rfl, c4_amended.2.2.2.1 [] "u" "w" rfl,
    c4_amended.2.2.2.2 [] "u"⟩

/-- C5: numeric promotion — on two numeric operands `+`, `-`, `*` stay
`Integer` for two integers and become `Float` as soon as one operand is a
float, while `/` always yields `Float`, whatever the operand kinds; the
documents `.[6 * 7].` and `.[100 / 4].` evaluate to `[Integer 42]` and
`[Float 25.0]` respectively. -/
theorem c5_numeric_promotion :
    (∀ a b : ℤ, pyAdd (.int a) (.int b) = .ok (.int (a + b)))
    ∧ (∀ (a : ℤ) (b : ℚ), pyAdd (.int a) (.float b) = .ok (.float (a + b)))
    ∧ (∀ (a : ℚ) (b : ℤ), pyAdd (.float a) (.int b) = .ok (.float (a + b)))
    ∧ (∀ a b : ℚ, pyAdd (.float a) (.float b) = .ok (.float (a + b)))
    ∧ (∀ a b : ℤ, pySub (.int a) (.int b) = .ok (.int (a - b)))
    ∧ (∀ (a : ℤ) (b : ℚ), pySub (.int a) (.float b) = .ok (.float (a - b)))
    ∧ (∀ (a : ℚ) (b : ℤ), pySub (.float a) (.int b) = .ok (.float (a - b)))
    ∧ (∀ a b : ℚ, pySub (.float a) (.float b) = .ok (.float (a - b)))
    ∧ (∀ a b : ℤ, pyMul (.int a) (.int b) = .ok (.int (a * b)))
    ∧ (∀ (a : ℤ) (b : ℚ), pyMul (.int a) (.float b) = .ok (.float (a * b)))
    ∧ (∀ (a : ℚ) (b : ℤ), pyMul (.float a) (.int b) = .ok (.float (a * b)))
    ∧ (∀ a b : ℚ, pyMul (.float a) (.float b) = .ok (.float (a * b)))
    ∧ (∀ a b : ℤ, pyDiv (.int a) (.int b) = .ok (.float ((a : ℚ) / (b : ℚ))))
    ∧ (∀ (a : ℤ) (b : ℚ), pyDiv (.int a) (.float b) = .ok (.float ((a : ℚ) / b)))
    ∧ (∀ (a : ℚ) (b : ℤ), pyDiv (.float a) (.int b) = .ok (.float (a / (b : ℚ))))
    ∧ (∀ a b : ℚ, pyDiv (.float a) (.float b) = .ok (.float (a / b)))
    ∧ parse_config ".[6 * 7]." = .ok (some [.int 42])
    ∧ parse_config ".[100 / 4]." = .ok (some [.float 25]) := by
  refine ⟨fun a b => rfl, fun a b => rfl, fun a b => rfl, fun a b => rfl,
    fun a b => rfl, fun a b => rfl, fun a b => rfl, fun a b => rfl,
    fun a b => rfl, fun a b => rfl, fun a b => rfl, fun a b => rfl,
    fun a b => rfl, fun a b => rfl, fun a b => rfl, fun a b => rfl, rfl, ?_⟩
  have h : parse_config ".[100 / 4]." =
      .ok (some [.float (((100 : ℤ) : ℚ) / ((4 : ℤ) : ℚ))]) := rfl
  rw [h]
  norm_num

/-- C6: division with a zero-valued right operand fails with
`DivisionByZeroError` — in particular `.[x / 0].` fails that way whatever
value `x` is bound to (even an array), because `div` zero-tests the resolved
right operand before the left operand is even resolved. -/
theorem c6_division_by_zero :
    (∀ v : Val,
      evalStmts [("x", v)] []
        [.valS (.cexpr (.div (.name "x") (.numI 0)))] = .error .divisionByZero)
    ∧ (∀ (env : Env) (l r : Expr) (lo ro : Operand) (v : Val),
        evalExpr env l = .ok lo → evalExpr env r = .ok ro →
        _eval_value env ro = .ok v → isZeroNum v = true →
        evalExpr env (.div l r) = .error .divisionByZero) := by
  refine ⟨fun v => rfl, ?_⟩
  intro env l r lo ro v hl hr hv hz
  show ((evalExpr env l).bind fun lo' =>
    (evalExpr env r).bind fun ro' =>
      (_eval_value env ro').bind fun b =>
        if isZeroNum b then Except.error Err.divisionByZero
        else (_eval_value env lo').bind fun a =>
          Except.map Operand.val (pyDiv a b)) = _
  rw [hl, exc_bind_ok, hr, exc_bind_ok, hv, exc_bind_ok, hz, if_pos rfl]

/-- C6 (witness): the general part applied to the concrete division
`7 / 0` in the empty environment, and the `.[x / 0].` part with `x` bound
to an empty array. -/
theorem c6_division_by_zero_witness :
    evalExpr [] (.div (.numI 7) (.numI 0)) = .error .divisionByZero
    ∧ evalStmts [("x", Val.arr [])] []
        [.valS (.cexpr (.div (.name "x") (.numI 0)))] = .error .divisionByZero :=
  ⟨c6_division_by_zero.2 [] (.numI 7) (.numI 0) (.val (.int 7)) (.val (.int 0))
      (.int 0) rfl rfl rfl rfl,
    c6_division_by_zero.1 (Val.arr [])⟩

/-- C8: the empty document produces the distinguished no-result marker while
`()` produces a one-element result sequence holding an empty array, and the
two outcomes are distinguishable. -/
theorem c8_empty_document_vs_empty_array :
    parse_config "" = .ok none
    ∧ parse_config "()" = .ok (some [.arr []])
    ∧ (none : Option (List Val)).isSome = false
    ∧ (some [Val.arr []]).isSome = true := ⟨rfl, rfl, rfl, rfl⟩

/-- C9: forward-only constant scope.  (1) After a successful prefix that
defines no constant named `s`, a bare reference to `s` aborts the run with
`UndefinedConstantError(s)` — covering both never-defined names and forward
references.  (2) A resolvable reference yields exactly the value the
environment currently associates with the name, appended to the results.
(3) A definition rebinds its name eagerly to the evaluated value, and (4) a
lookup after the rebinding returns the new value (most-recent binding
wins). -/
theorem c9_forward_only_scope :
    (∀ p s rest env acc, evalStmts [] [] p = .ok (env, acc) → s ∉ defNames p →
      evalStmts [] [] (p ++ .valS (.name s) :: rest) = .error (.undefinedConstant s))
    ∧ (∀ p s rest env acc v, evalStmts [] [] p = .ok (env, acc) →
        lookupEnv env s = some v →
        evalStmts [] [] (p ++ .valS (.name s) :: rest) =
          evalStmts env (acc ++ [v]) rest)
    ∧ (∀ env acc n ve v rest, evalValue env ve = .ok v →
        evalStmts env acc (.defS n ve :: rest) = evalStmts ((n, v) :: env) acc rest)
    ∧ (∀ (env : Env) n v, lookupEnv ((n, v) :: env) n = some v) := by
  refine ⟨?_, ?_, ?_, ?_⟩
  · intro p s rest env acc hp hnot
    rw [evalStmts_append, hp, exc_bind_ok, evalStmts_cons_val]
    have hlook : lookupEnv env s = none := by
      rw [evalStmts_lookup_stable p [] [] env acc s hp hnot]
      rfl
    rw [evalValue_name_none env s hlook, exc_bind_err]
  · intro p s rest env acc v hp hlook
    rw [evalStmts_append, hp, exc_bind_ok, evalStmts_cons_val,
      evalValue_name_some env s v hlook, exc_bind_ok]
  · intro env acc n ve v rest hv
    rw [evalStmts_cons_def, hv, exc_bind_ok]
  · intro env n v
    show (if n = n then some v else lookupEnv env n) = some v
    rw [if_pos rfl]

/-- C9 (witness): the scope statement applied to the concrete one-definition
prefix `def z = 1`: the reference `x` (never defined) fails, the reference
`z` yields the bound value, the definition extends the environment, and the
lookup returns the just-bound value. -/
theorem c9_forward_only_scope_witness :
    evalStmts [] [] ([Stmt.defS "z" (VExpr.numI 1)] ++ .valS (.name "x") :: []) =
      .error (.undefinedConstant "x")
    ∧ evalStmts [] [] ([Stmt.defS "z" (VExpr.numI 1)] ++ .valS (.name "z") :: []) =
        evalStmts [("z", Val.int 1)] ([] ++ [Val.int 1]) []
    ∧ evalStmts [] [] [Stmt.defS "z" (VExpr.numI 1)] =
        evalStmts [("z", Val.int 1)] [] []
    ∧ lookupEnv [("z", Val.int 1)] "z" = some (Val.int 1) :=
  ⟨c9_forward_only_scope.1 [Stmt.defS "z" (VExpr.numI 1)] "x" [] [("z", Val.int 1)] []
      rfl (by simp [defNames]),
    c9_forward_only_scope.2.1 [Stmt.defS "z" (VExpr.numI 1)] "z" [] [("z", Val.int 1)] []
      (Val.int 1) rfl rfl,
    c9_forward_only_scope.2.2.1 [] [] "z" (VExpr.numI 1) (Val.int 1) [] rfl,
    c9_forward_only_scope.2.2.2 [] "z" (Val.int 1)⟩

/-- C10: value-kind closure — every value of the model is an integer, a
float, or a finite-depth nested array of such values; `len_func` succeeds on
every such value; and no run of the program — over any document string —
can ever end in the error of `len_func`'s defensive final branch, which is
therefore unreachable. -/
theorem c10_value_closure :
    (∀ v : Val, valClosed v = true)
    ∧ (∀ v : Val, (len_func v).isOk = true)
    ∧ (∀ s : String, isLenErrE (parse_config s) = false) := by
  refine ⟨valClosed_true, len_func_total, ?_⟩
  intro s
  show isLenErrE (match tokenize (s.data.length + 1) s.data with
    | none => Except.error Err.grammarError
    | some toks =>
      match parseProgram (8 * toks.length + 16) toks with
      | none => Except.error Err.grammarError
      | some stmts => runDoc stmts) = false
  cases tokenize (s.data.length + 1) s.data with
  | none => rfl
  | some toks =>
    show isLenErrE (match parseProgram (8 * toks.length + 16) toks with
      | none => Except.error Err.grammarError
      | some stmts => runDoc stmts) = false
    cases parseProgram (8 * toks.length + 16) toks with
    | none => rfl
    | some stmts => exact runDoc_no_lenErr stmts

end Konfig
